import Mathlib

/-!
Verification of the token and signature generation subsystem of
`opentok-server-rs` (`src/lib.rs` and `src/http_client.rs`).

Rust strings are modelled at the byte level: a `String` or `&str` value is a
`List Nat` of its UTF-8 bytes (each `< 256`).  Machine integers (`u64`, the
values returned by `SystemTime::as_secs` and `rand::Rng::gen::<u64>()`) are
`Nat` with wrap-around made explicit through `% 2^64`, matching release-mode
Rust semantics of `u64` addition.  The ambient clock draw
`SystemTime::now().duration_since(UNIX_EPOCH)` is modelled as an
`Option Nat`: `some t` is the `Ok` case carrying `as_secs = t`, and `none`
is the `Err` case (clock before the Unix epoch), on which the Rust code
panics via `.expect(..)`; a panicking execution is modelled as `none` in the
function's result.
-/

/-- The modulus `2^64` of Rust `u64` arithmetic. -/
def U64 : Nat := 18446744073709551616

/-- UTF-8 bytes of a string; used only on ASCII literals, where the UTF-8
bytes coincide with the code points. -/
def asciiStr (s : String) : List Nat := s.data.map Char.toNat

/-- All members of the list are valid byte values. -/
def ByteValid (l : List Nat) : Prop := ∀ b ∈ l, b < 256

instance (l : List Nat) : Decidable (ByteValid l) := by
  unfold ByteValid; infer_instance

/-! ### Decimal rendering of unsigned integers (Rust `u64` `Display`) -/

/-- Decimal digits (as ASCII bytes, most significant first) of `n`,
with recursion fuel. -/
def natDecGo : Nat → Nat → List Nat
  | 0, _ => []
  | fuel + 1, n => if n < 10 then [48 + n] else natDecGo fuel (n / 10) ++ [48 + n % 10]

/-- ASCII decimal rendering of a natural number, as Rust's `Display` for
unsigned integers produces it (no sign, no leading zeros, `"0"` for zero). -/
def natDec (n : Nat) : List Nat := natDecGo (n + 1) n

/-- Value of a digit-byte string, inverse of `natDec`. -/
def decVal (l : List Nat) : Nat := l.foldl (fun acc d => acc * 10 + (d - 48)) 0

/-! ### Lowercase hexadecimal rendering (`rustc_serialize::hex::ToHex`) -/

/-- Lowercase hex digit byte for a value `< 16`. -/
def hexDigit (n : Nat) : Nat := if n < 10 then 48 + n else 87 + n

/-- Lowercase hexadecimal rendering of a byte string, two digits per byte,
as `rustc_serialize`'s `ToHex` produces it. -/
def toHex : List Nat → List Nat
  | [] => []
  | b :: rest => hexDigit (b / 16) :: hexDigit (b % 16) :: toHex rest

/-! ### Standard base64 with padding (the `base64` crate's `encode`) -/

/-- Character (byte) of the standard base64 alphabet for a sextet `< 64`. -/
def b64c (n : Nat) : Nat :=
  if n < 26 then 65 + n
  else if n < 52 then 97 + (n - 26)
  else if n < 62 then 48 + (n - 52)
  else if n = 62 then 43
  else 47

/-- Inverse of the standard base64 alphabet. -/
def b64inv (c : Nat) : Option Nat :=
  if 65 ≤ c ∧ c ≤ 90 then some (c - 65)
  else if 97 ≤ c ∧ c ≤ 122 then some (c - 97 + 26)
  else if 48 ≤ c ∧ c ≤ 57 then some (c - 48 + 52)
  else if c = 43 then some 62
  else if c = 47 then some 63
  else none

/-- Standard base64 encoding with `=` padding of a byte string, as
`base64::encode` produces it. -/
def b64encode : List Nat → List Nat
  | a :: b :: c :: rest =>
      b64c (a / 4) :: b64c ((a % 4) * 16 + b / 16) :: b64c ((b % 16) * 4 + c / 64) ::
        b64c (c % 64) :: b64encode rest
  | [a, b] => [b64c (a / 4), b64c ((a % 4) * 16 + b / 16), b64c ((b % 16) * 4), 61]
  | [a] => [b64c (a / 4), b64c ((a % 4) * 16), 61, 61]
  | [] => []

/-- Standard base64 decoding with `=` padding; `none` on malformed input. -/
def b64decode : List Nat → Option (List Nat)
  | [] => some []
  | c1 :: c2 :: c3 :: c4 :: rest =>
    match b64inv c1, b64inv c2 with
    | some s1, some s2 =>
      if c3 = 61 then
        if c4 = 61 ∧ rest = [] then some [s1 * 4 + s2 / 16] else none
      else
        match b64inv c3 with
        | some s3 =>
          if c4 = 61 then
            if rest = [] then some [s1 * 4 + s2 / 16, (s2 % 16) * 16 + s3 / 4] else none
          else
            match b64inv c4 with
            | some s4 =>
              match b64decode rest with
              | some tail =>
                  some ((s1 * 4 + s2 / 16) :: ((s2 % 16) * 16 + s3 / 4) ::
                    ((s3 % 4) * 64 + s4) :: tail)
              | none => none
            | none => none
        | none => none
    | _, _ => none
  | _ => none

/-! ### SHA-1 and HMAC-SHA1 (the `hmacsha1` crate) -/

/-- Big-endian 4-byte rendering of a 32-bit word. -/
def beBytes4 (n : Nat) : List Nat :=
  [n / 16777216 % 256, n / 65536 % 256, n / 256 % 256, n % 256]

/-- Big-endian 8-byte rendering of a 64-bit value. -/
def beBytes8 (n : Nat) : List Nat :=
  [n / 72057594037927936 % 256, n / 281474976710656 % 256, n / 1099511627776 % 256,
   n / 4294967296 % 256, n / 16777216 % 256, n / 65536 % 256, n / 256 % 256, n % 256]

/-- Left rotation by `k` of a 32-bit word `x < 2^32`. -/
def rotl32 (k x : Nat) : Nat := ((x <<< k) ||| (x >>> (32 - k))) % 4294967296

/-- SHA-1 message padding: `0x80`, zero bytes to 56 mod 64, then the 64-bit
big-endian bit length. -/
def sha1pad (msg : List Nat) : List Nat :=
  msg ++ 128 :: List.replicate ((119 - msg.length % 64) % 64) 0 ++
    beBytes8 (msg.length * 8 % U64)

/-- Split a byte string into 64-byte blocks (fuel-driven). -/
def chunks64Go : Nat → List Nat → List (List Nat)
  | 0, _ => []
  | _ + 1, [] => []
  | fuel + 1, l => l.take 64 :: chunks64Go fuel (l.drop 64)

/-- Big-endian 32-bit words of a byte string. -/
def toWords32 : List Nat → List Nat
  | a :: b :: c :: d :: rest => (((a * 256 + b) * 256 + c) * 256 + d) :: toWords32 rest
  | _ => []

/-- Extend the 16-word message schedule to 80 words (fuel counts the words
still to append). -/
def sha1Extend : Nat → List Nat → List Nat
  | 0, w => w
  | fuel + 1, w =>
      sha1Extend fuel (w ++ [rotl32 1 ((w.getD (w.length - 3) 0 ^^^ w.getD (w.length - 8) 0)
        ^^^ (w.getD (w.length - 14) 0 ^^^ w.getD (w.length - 16) 0))])

/-- One SHA-1 round: state `(a, b, c, d, e)`, round index `t`, schedule `w`. -/
def sha1Round (w : List Nat) (st : Nat × Nat × Nat × Nat × Nat) (t : Nat) :
    Nat × Nat × Nat × Nat × Nat :=
  let (a, b, c, d, e) := st
  let f :=
    if t < 20 then (b &&& c) ||| ((b ^^^ 4294967295) &&& d)
    else if t < 40 then (b ^^^ c) ^^^ d
    else if t < 60 then ((b &&& c) ||| (b &&& d)) ||| (c &&& d)
    else (b ^^^ c) ^^^ d
  let k :=
    if t < 20 then 1518500249
    else if t < 40 then 1859775393
    else if t < 60 then 2400959708
    else 3395469782
  let temp := (rotl32 5 a + f + e + k + w.getD t 0) % 4294967296
  (temp, a, rotl32 30 b, c, d)

/-- SHA-1 compression of one 64-byte block into the running hash state. -/
def sha1Block (h : Nat × Nat × Nat × Nat × Nat) (block : List Nat) :
    Nat × Nat × Nat × Nat × Nat :=
  let w := sha1Extend 64 (toWords32 block)
  let (h0, h1, h2, h3, h4) := h
  let (a, b, c, d, e) := (List.range 80).foldl (sha1Round w) (h0, h1, h2, h3, h4)
  ((h0 + a) % 4294967296, (h1 + b) % 4294967296, (h2 + c) % 4294967296,
   (h3 + d) % 4294967296, (h4 + e) % 4294967296)

/-- SHA-1 digest (20 bytes) of a byte string. -/
def sha1 (msg : List Nat) : List Nat :=
  let padded := sha1pad msg
  let st := (chunks64Go padded.length padded).foldl sha1Block
    (1732584193, 4023233417, 2562383102, 271733878, 3285377520)
  beBytes4 st.1 ++ beBytes4 st.2.1 ++ beBytes4 st.2.2.1 ++
    beBytes4 st.2.2.2.1 ++ beBytes4 st.2.2.2.2

/-- HMAC-SHA1 (RFC 2104, block size 64) of `msg` under `key`, as the
`hmacsha1` crate computes it. -/
def hmacSha1 (key msg : List Nat) : List Nat :=
  let k0 := if key.length > 64 then sha1 key else key
  let k1 := k0 ++ List.replicate (64 - k0.length) 0
  sha1 ((k1.map (fun b => b ^^^ 92)) ++ sha1 ((k1.map (fun b => b ^^^ 54)) ++ msg))

/-! ### The library's data model (`src/lib.rs`, `src/http_client.rs`) -/

/-- The type `OpenTokError` from `src/lib.rs`: all errors returned by the library.
Message payloads are kept as Lean `String`s. -/
inductive OpenTokError where
  | BadRequest (msg : String)
  | EncodingError
  | ServerError (msg : String)
  | UnexpectedResponse (msg : String)
  | __Unknown
deriving DecidableEq

/-- The conversion `impl From<surf::Error> for OpenTokError` (`src/lib.rs` lines 33-41):
maps the transport error's HTTP status (a `u16`) and message into the
library's error type. -/
def OpenTokError.fromSurf (status : Nat) (msg : String) : OpenTokError :=
  if 400 ≤ status ∧ status ≤ 499 then OpenTokError.BadRequest msg
  else if 500 ≤ status ∧ status ≤ 599 then OpenTokError.ServerError msg
  else OpenTokError.__Unknown

/-- The enumeration `TokenRole` from `src/lib.rs`. -/
inductive TokenRole where
  | Publisher
  | Subscriber
  | Moderator
deriving DecidableEq

/-- The wire value of `impl fmt::Display for TokenRole`: the lowercase `Debug` name,
as UTF-8 bytes. -/
def TokenRole.toWire : TokenRole → List Nat
  | TokenRole.Publisher => asciiStr "publisher"
  | TokenRole.Subscriber => asciiStr "subscriber"
  | TokenRole.Moderator => asciiStr "moderator"

/-- The struct `TokenData` from `src/lib.rs` lines 145-152. The three `u64` fields are
`Nat` values `< 2^64`. -/
structure TokenData where
  session_id : List Nat
  create_time : Nat
  expire_time : Nat
  nonce : Nat
  role : TokenRole
deriving DecidableEq

/-- The constructor `TokenData::new` (`src/lib.rs` lines 154-168).  `clock` is the result of
`SystemTime::now().duration_since(UNIX_EPOCH)` (`none` = `Err`, on which the
code panics via `.expect`, modelled as `none`); `nonce` is the
`rng.gen::<u64>()` draw.  `expire_time` is the `u64` sum
`now + 60 * 60 * 24`, which wraps modulo `2^64`. -/
def TokenData.new (session_id : List Nat) (role : TokenRole)
    (clock : Option Nat) (nonce : Nat) : Option TokenData :=
  match clock with
  | none => none
  | some now =>
      some { session_id := session_id
             create_time := now % U64
             expire_time := (now + 86400) % U64
             nonce := nonce % U64
             role := role }

/-- The serialization `impl fmt::Display for TokenData` (`src/lib.rs` lines 171-182): the
fixed-order query string
`session_id=..&create_time=..&expire_time=..&nonce=..&role=..`. -/
def TokenData.toWire (td : TokenData) : List Nat :=
  asciiStr "session_id=" ++ td.session_id ++
    asciiStr "&create_time=" ++ natDec td.create_time ++
    asciiStr "&expire_time=" ++ natDec td.expire_time ++
    asciiStr "&nonce=" ++ natDec td.nonce ++
    asciiStr "&role=" ++ td.role.toWire

/-- The method `OpenTok::generate_token` (`src/lib.rs` lines 247-262), with the two
ambient draws (clock result and nonce) passed explicitly.  `none` models the
panic on a pre-epoch clock inside `TokenData::new`. -/
def generate_token (api_key api_secret : List Nat) (session_id : List Nat)
    (role : TokenRole) (clock : Option Nat) (nonce : Nat) : Option (List Nat) :=
  match TokenData.new session_id role clock nonce with
  | none => none
  | some token_data =>
      let signed := toHex (hmacSha1 api_secret token_data.toWire)
      let decoded := asciiStr "partner_id=" ++ api_key ++ asciiStr "&sig=" ++ signed ++
        asciiStr ":" ++ token_data.toWire
      let encoded := b64encode decoded
      some (asciiStr "T1==" ++ encoded)

/-- The struct `Claims` from `src/http_client.rs` lines 12-19: the server-auth JWT
claims payload. -/
structure Claims where
  iss : List Nat
  ist : List Nat
  iat : Nat
  exp : Nat
  jti : Nat
deriving DecidableEq

/-- The constructor `Claims::new` (`src/http_client.rs` lines 21-36), with the ambient clock
result and the `rng.gen::<u64>()` draw passed explicitly.  `exp` is the
`u64` sum `now + 3 * 60`, which wraps modulo `2^64`. -/
def Claims.new (api_key : List Nat) (clock : Option Nat) (jti : Nat) : Option Claims :=
  match clock with
  | none => none
  | some now =>
      some { iss := api_key
             ist := asciiStr "project"
             iat := now % U64
             exp := (now + 180) % U64
             jti := jti % U64 }

/-- The function `auth_header` (`src/http_client.rs` lines 38-46).  The external
`jsonwebtoken::encode` call is a parameter `jwtEncode` taking the secret and
the claims and returning either the assertion string or a crate error of an
arbitrary type `E`; the source maps any such error to
`OpenTokError::EncodingError`. -/
def auth_header {E : Type} (jwtEncode : List Nat → Claims → Except E (List Nat))
    (api_key api_secret : List Nat) (clock : Option Nat) (jti : Nat) :
    Option (Except OpenTokError (List Nat)) :=
  match Claims.new api_key clock jti with
  | none => none
  | some claims =>
      match jwtEncode api_secret claims with
      | Except.ok assertion => some (Except.ok assertion)
      | Except.error _ => some (Except.error OpenTokError.EncodingError)

/-- The struct `CreateSessionResponse` from `src/lib.rs` lines 127-130. -/
structure CreateSessionResponse where
  session_id : String
deriving DecidableEq

/-- The tail of `OpenTok::create_session` (`src/lib.rs` lines 237-244) after
the response body has parsed as a list of session objects: the
`assert_eq!(response.len(), 1)` (a panic when violated, modelled as `none`)
followed by `response.pop()` (`Vec::pop` takes the last element).  `body` is
the raw response body string carried into `UnexpectedResponse`. -/
def create_session_on_parsed (body : String) (parsed : List CreateSessionResponse) :
    Option (Except OpenTokError String) :=
  if parsed.length = 1 then
    match parsed.getLast? with
    | some session => some (Except.ok session.session_id)
    | none => some (Except.error (OpenTokError.UnexpectedResponse body))
  else none

/-! ### Properties of the encodings -/

/-- The base64 alphabet map is inverted by `b64inv` and never produces the
padding byte `=` (61). -/
theorem b64c_spec : ∀ x < 64, b64inv (b64c x) = some x ∧ b64c x ≠ 61 := by decide

/-- Decoding is a left inverse of `b64encode` on byte strings. -/
theorem b64decode_b64encode (l : List Nat) (hv : ByteValid l) :
    b64decode (b64encode l) = some l := by
  induction l using b64encode.induct with
  | case1 a b c rest ih =>
    have ha : a < 256 := hv a (by simp)
    have hb : b < 256 := hv b (by simp)
    have hc : c < 256 := hv c (by simp)
    have h1 := b64c_spec (a / 4) (by omega)
    have h2 := b64c_spec ((a % 4) * 16 + b / 16) (by omega)
    have h3 := b64c_spec ((b % 16) * 4 + c / 64) (by omega)
    have h4 := b64c_spec (c % 64) (by omega)
    have ihv : b64decode (b64encode rest) = some rest := by
      refine ih ?_
      intro x hx
      exact hv x (by simp [hx])
    simp [b64encode, b64decode, h1.1, h2.1, h3.1, h4.1, h3.2, h4.2, ihv]
    constructor
    · omega
    constructor
    · omega
    · omega
  | case2 a b =>
    have ha : a < 256 := hv a (by simp)
    have hb : b < 256 := hv b (by simp)
    have h1 := b64c_spec (a / 4) (by omega)
    have h2 := b64c_spec ((a % 4) * 16 + b / 16) (by omega)
    have h3 := b64c_spec ((b % 16) * 4) (by omega)
    simp [b64encode, b64decode, h1.1, h2.1, h3.1, h3.2]
    constructor
    · omega
    · omega
  | case3 a =>
    have ha : a < 256 := hv a (by simp)
    have h1 := b64c_spec (a / 4) (by omega)
    have h2 := b64c_spec ((a % 4) * 16) (by omega)
    simp [b64encode, b64decode, h1.1, h2.1]
    omega
  | case4 => rfl

/-- Encoding `b64encode` is injective on byte strings. -/
theorem b64encode_inj {l1 l2 : List Nat} (h1 : ByteValid l1) (h2 : ByteValid l2)
    (h : b64encode l1 = b64encode l2) : l1 = l2 := by
  have e1 := b64decode_b64encode l1 h1
  have e2 := b64decode_b64encode l2 h2
  rw [h, e2] at e1
  exact (Option.some_inj.mp e1).symm

/-- Evaluation of `decVal` over a snoc. -/
theorem decVal_append_single (l : List Nat) (d : Nat) :
    decVal (l ++ [d]) = decVal l * 10 + (d - 48) := by
  simp [decVal, List.foldl_append]

/-- With enough fuel, `decVal` recovers the rendered number. -/
theorem decVal_natDecGo : ∀ fuel n, n ≤ fuel → decVal (natDecGo fuel n) = n := by
  intro fuel
  induction fuel with
  | zero =>
    intro n hn
    have : n = 0 := by omega
    subst this
    simp [natDecGo, decVal]
  | succ fuel ih =>
    intro n hn
    by_cases h : n < 10
    · simp [natDecGo, h, decVal]
    · have hrec : n / 10 ≤ fuel := by omega
      simp [natDecGo, h, decVal_append_single, ih (n / 10) hrec]
      omega

/-- Evaluation `decVal` inverts `natDec`. -/
theorem decVal_natDec (n : Nat) : decVal (natDec n) = n :=
  decVal_natDecGo (n + 1) n (by omega)

/-- Decimal rendering is injective. -/
theorem natDec_inj {m n : Nat} (h : natDec m = natDec n) : m = n := by
  have hm := decVal_natDec m
  rw [h, decVal_natDec] at hm
  exact hm.symm

/-- Every byte of a decimal rendering is an ASCII digit. -/
theorem natDecGo_digits : ∀ fuel n d, d ∈ natDecGo fuel n → 48 ≤ d ∧ d ≤ 57 := by
  intro fuel
  induction fuel with
  | zero => intro n d hd; simp [natDecGo] at hd
  | succ fuel ih =>
    intro n d hd
    by_cases h : n < 10
    · simp [natDecGo, h] at hd
      omega
    · simp [natDecGo, h] at hd
      rcases hd with hd | hd
      · exact ih (n / 10) d hd
      · omega

/-- Every byte of `natDec n` is an ASCII digit. -/
theorem natDec_digits (n : Nat) : ∀ d ∈ natDec n, 48 ≤ d ∧ d ≤ 57 :=
  fun d hd => natDecGo_digits (n + 1) n d hd

/-- Two digit strings followed by the same non-digit delimiter byte 38
(`'&'`) and arbitrary tails coincide only componentwise. -/
theorem digits_delim : ∀ {a : List Nat} {b x y : List Nat},
    (∀ d ∈ a, 48 ≤ d ∧ d ≤ 57) → (∀ d ∈ b, 48 ≤ d ∧ d ≤ 57) →
    a ++ 38 :: x = b ++ 38 :: y → a = b ∧ x = y := by
  intro a
  induction a with
  | nil =>
    intro b x y _ hb h
    cases b with
    | nil => simpa using h
    | cons e b' =>
      simp at h
      have : 48 ≤ e ∧ e ≤ 57 := hb e (by simp)
      omega
  | cons d a' ih =>
    intro b x y ha hb h
    cases b with
    | nil =>
      simp at h
      have : 48 ≤ d ∧ d ≤ 57 := ha d (by simp)
      omega
    | cons e b' =>
      simp at h
      obtain ⟨hde, htail⟩ := h
      have := ih (fun z hz => ha z (by simp [hz])) (fun z hz => hb z (by simp [hz])) htail
      exact ⟨by simp [hde, this.1], this.2⟩

/-- Hex rendering doubles the length. -/
theorem toHex_length : ∀ l : List Nat, (toHex l).length = 2 * l.length := by
  intro l
  induction l with
  | nil => rfl
  | cons b rest ih => simp [toHex, ih]; omega

/-- A SHA-1 digest has 20 bytes. -/
theorem sha1_length (msg : List Nat) : (sha1 msg).length = 20 := by
  unfold sha1
  obtain ⟨h0, h1, h2, h3, h4⟩ := (chunks64Go (sha1pad msg).length (sha1pad msg)).foldl
    sha1Block (1732584193, 4023233417, 2562383102, 271733878, 3285377520)
  simp [beBytes4]

/-- An HMAC-SHA1 digest has 20 bytes. -/
theorem hmacSha1_length (key msg : List Nat) : (hmacSha1 key msg).length = 20 := by
  unfold hmacSha1
  exact sha1_length _

/-- The bytes of a SHA-1 digest are valid. -/
theorem sha1_valid (msg : List Nat) : ByteValid (sha1 msg) := by
  unfold sha1
  obtain ⟨h0, h1, h2, h3, h4⟩ := (chunks64Go (sha1pad msg).length (sha1pad msg)).foldl
    sha1Block (1732584193, 4023233417, 2562383102, 271733878, 3285377520)
  intro b hb
  simp [beBytes4] at hb
  rcases hb with h | h | h | h | h <;> omega

/-- The bytes of an HMAC-SHA1 digest are valid. -/
theorem hmacSha1_valid (key msg : List Nat) : ByteValid (hmacSha1 key msg) := by
  unfold hmacSha1
  exact sha1_valid _

/-- Hex rendering of a byte string yields valid ASCII bytes. -/
theorem toHex_valid : ∀ l : List Nat, ByteValid l → ByteValid (toHex l) := by
  intro l hv
  induction l with
  | nil => intro b hb; simp [toHex] at hb
  | cons a rest ih =>
    intro b hb
    have ha : a < 256 := hv a (by simp)
    simp [toHex, hexDigit] at hb
    rcases hb with h | h | h
    · split at h <;> omega
    · split at h <;> omega
    · exact ih (fun x hx => hv x (by simp [hx])) b h

/-- Decimal renderings are valid byte strings. -/
theorem natDec_valid (n : Nat) : ByteValid (natDec n) := by
  intro b hb
  have := natDec_digits n b hb
  omega

/-- Role wire names are valid byte strings. -/
theorem toWire_role_valid (r : TokenRole) : ByteValid r.toWire := by
  cases r <;> decide

/-- A query string is a valid byte string whenever the session id is. -/
theorem toWire_valid (td : TokenData) (hs : ByteValid td.session_id) :
    ByteValid td.toWire := by
  intro b hb
  simp [TokenData.toWire] at hb
  rcases hb with h | h | h | h | h | h | h | h | h | h
  · revert h b; decide
  · exact hs b h
  · revert h b; decide
  · exact natDec_valid _ b h
  · revert h b; decide
  · exact natDec_valid _ b h
  · revert h b; decide
  · exact natDec_valid _ b h
  · revert h b; decide
  · exact toWire_role_valid _ b h

/-- The serialized query string determines the `create_time`, `expire_time`
and `nonce` fields, for a fixed session id and role: the numeric fields are
delimited by the non-digit byte `'&'`. -/
theorem toWire_inj {sid : List Nat} {role : TokenRole} {c1 e1 o1 c2 e2 o2 : Nat}
    (h : TokenData.toWire ⟨sid, c1, e1, o1, role⟩ = TokenData.toWire ⟨sid, c2, e2, o2, role⟩) :
    c1 = c2 ∧ e1 = e2 ∧ o1 = o2 := by
  simp only [TokenData.toWire, List.append_assoc] at h
  replace h := List.append_cancel_left h
  replace h := List.append_cancel_left h
  replace h := List.append_cancel_left h
  have hfe : asciiStr "&expire_time=" = 38 :: asciiStr "expire_time=" := by decide
  rw [hfe] at h
  simp only [List.cons_append, List.append_assoc] at h
  obtain ⟨hc, h⟩ := digits_delim (natDec_digits c1) (natDec_digits c2) h
  replace h := List.append_cancel_left h
  have hfn : asciiStr "&nonce=" = 38 :: asciiStr "nonce=" := by decide
  rw [hfn] at h
  simp only [List.cons_append, List.append_assoc] at h
  obtain ⟨he, h⟩ := digits_delim (natDec_digits e1) (natDec_digits e2) h
  replace h := List.append_cancel_left h
  have hfr : asciiStr "&role=" = 38 :: asciiStr "role=" := by decide
  rw [hfr] at h
  simp only [List.cons_append, List.append_assoc] at h
  obtain ⟨ho, _⟩ := digits_delim (natDec_digits o1) (natDec_digits o2) h
  exact ⟨natDec_inj hc, natDec_inj he, natDec_inj ho⟩

/-- The inner (pre-base64) string of a client token for a given token-data
record. -/
def innerOf (api_key api_secret : List Nat) (td : TokenData) : List Nat :=
  asciiStr "partner_id=" ++ api_key ++ asciiStr "&sig=" ++
    toHex (hmacSha1 api_secret td.toWire) ++ asciiStr ":" ++ td.toWire

/-- The full client token string for a given token-data record. -/
def tokenOf (api_key api_secret : List Nat) (td : TokenData) : List Nat :=
  asciiStr "T1==" ++ b64encode (innerOf api_key api_secret td)

/-- On a readable clock, `generate_token` produces exactly the token of the
token-data record built by `TokenData::new`. -/
theorem generate_token_eq_tokenOf (api_key api_secret session_id : List Nat)
    (role : TokenRole) (t nonce : Nat) :
    generate_token api_key api_secret session_id role (some t) nonce =
      some (tokenOf api_key api_secret
        ⟨session_id, t % U64, (t + 86400) % U64, nonce % U64, role⟩) := by
  rfl

/-- An inner string is a valid byte string whenever the key and session id
are. -/
theorem innerOf_valid (api_key api_secret : List Nat) (td : TokenData)
    (hk : ByteValid api_key) (hs : ByteValid td.session_id) :
    ByteValid (innerOf api_key api_secret td) := by
  intro b hb
  simp [innerOf] at hb
  rcases hb with h | h | h | h | h | h
  · revert h b; decide
  · exact hk b h
  · revert h b; decide
  · exact toHex_valid _ (hmacSha1_valid _ _) b h
  · revert h b; decide
  · exact toWire_valid td hs b h

/-- Two client tokens over the same key, secret, session id and role
coincide only if the underlying time and nonce fields coincide. -/
theorem tokenOf_inj {api_key api_secret sid : List Nat} {role : TokenRole}
    {c1 e1 o1 c2 e2 o2 : Nat}
    (hk : ByteValid api_key) (hs : ByteValid sid)
    (h : tokenOf api_key api_secret ⟨sid, c1, e1, o1, role⟩ =
      tokenOf api_key api_secret ⟨sid, c2, e2, o2, role⟩) :
    c1 = c2 ∧ e1 = e2 ∧ o1 = o2 := by
  unfold tokenOf at h
  replace h := List.append_cancel_left h
  replace h := b64encode_inj
    (innerOf_valid _ api_secret _ hk hs) (innerOf_valid _ api_secret _ hk hs) h
  simp only [innerOf, List.append_assoc] at h
  replace h := List.append_cancel_left h
  replace h := List.append_cancel_left h
  replace h := List.append_cancel_left h
  have hlen : (toHex (hmacSha1 api_secret (TokenData.toWire ⟨sid, c1, e1, o1, role⟩))).length =
      (toHex (hmacSha1 api_secret (TokenData.toWire ⟨sid, c2, e2, o2, role⟩))).length := by
    rw [toHex_length, toHex_length, hmacSha1_length, hmacSha1_length]
  obtain ⟨-, h⟩ := List.append_inj h hlen
  replace h := List.append_cancel_left h
  exact toWire_inj h

/-! ### Claims -/

/-- C1 (amended): for every apiKey, apiSecret, sessionId, role, drawn u64
time `t` and drawn u64 nonce `n`, provided the u64 addition `t + 86400` does
not wrap, `generate_token` returns `"T1=="` followed by the standard padded
base64 encoding of `partner_id=<apiKey>&sig=<hex digest>:<query string>`,
where the query string is exactly
`session_id=..&create_time=<t>&expire_time=<t+86400>&nonce=<n>&role=<lowercase role>`
in that fixed order and the digest is the lowercase hex HMAC-SHA1 of the
query string under the raw bytes of apiSecret. -/
theorem generate_token_format (api_key api_secret session_id : List Nat)
    (role : TokenRole) (t n : Nat) (ht : t + 86400 < U64) (hn : n < U64) :
    generate_token api_key api_secret session_id role (some t) n =
      some (asciiStr "T1==" ++ b64encode (
        asciiStr "partner_id=" ++ api_key ++ asciiStr "&sig=" ++
          toHex (hmacSha1 api_secret
            (asciiStr "session_id=" ++ session_id ++ asciiStr "&create_time=" ++ natDec t ++
              asciiStr "&expire_time=" ++ natDec (t + 86400) ++ asciiStr "&nonce=" ++
              natDec n ++ asciiStr "&role=" ++ role.toWire)) ++ asciiStr ":" ++
          (asciiStr "session_id=" ++ session_id ++ asciiStr "&create_time=" ++ natDec t ++
            asciiStr "&expire_time=" ++ natDec (t + 86400) ++ asciiStr "&nonce=" ++
            natDec n ++ asciiStr "&role=" ++ role.toWire))) := by
  rw [generate_token_eq_tokenOf]
  rw [Nat.mod_eq_of_lt (show t < U64 by omega), Nat.mod_eq_of_lt ht, Nat.mod_eq_of_lt hn]
  rfl

/-- Witness for C1 at a concrete draw. -/
theorem generate_token_format_witness :
    (1600000000 + 86400 < U64 ∧ 42 < U64) ∧
    generate_token [107] [115] [97] TokenRole.Publisher (some 1600000000) 42 =
      some (asciiStr "T1==" ++ b64encode (
        asciiStr "partner_id=" ++ [107] ++ asciiStr "&sig=" ++
          toHex (hmacSha1 [115]
            (asciiStr "session_id=" ++ [97] ++ asciiStr "&create_time=" ++ natDec 1600000000 ++
              asciiStr "&expire_time=" ++ natDec (1600000000 + 86400) ++ asciiStr "&nonce=" ++
              natDec 42 ++ asciiStr "&role=" ++ TokenRole.Publisher.toWire)) ++ asciiStr ":" ++
          (asciiStr "session_id=" ++ [97] ++ asciiStr "&create_time=" ++ natDec 1600000000 ++
            asciiStr "&expire_time=" ++ natDec (1600000000 + 86400) ++ asciiStr "&nonce=" ++
            natDec 42 ++ asciiStr "&role=" ++ TokenRole.Publisher.toWire))) :=
  ⟨⟨by decide, by decide⟩,
    generate_token_format [107] [115] [97] TokenRole.Publisher 1600000000 42
      (by decide) (by decide)⟩

/-- C1 counterexample: at the drawn u64 time `2^64 - 1` the embedded
`expire_time` is `86399` (the u64 sum wraps), so the token differs from the
claim's format, which embeds `t + 86400`. -/
theorem generate_token_format_cex :
    generate_token [107] [115] [97] TokenRole.Publisher (some 18446744073709551615) 0 ≠
      some (tokenOf [107] [115]
        ⟨[97], 18446744073709551615, 18446744073709551615 + 86400, 0, TokenRole.Publisher⟩) := by
  intro h
  rw [generate_token_eq_tokenOf] at h
  replace h := Option.some_inj.mp h
  rw [show (18446744073709551615 : Nat) % U64 = 18446744073709551615 from by decide,
    show (18446744073709551615 + 86400) % U64 = 86399 from by decide,
    show (0 : Nat) % U64 = 0 from by decide] at h
  obtain ⟨-, he, -⟩ := tokenOf_inj (by decide) (by decide) h
  omega

/-- C2: for every token produced by `generate_token`, stripping the four
`T1==` prefix bytes and base64-decoding the remainder succeeds and recovers
the inner string, whose `partner_id` field is the original apiKey and whose
`sig` field is exactly the lowercase-hex HMAC-SHA1 digest of the recovered
query string under the original apiSecret. -/
theorem generate_token_roundtrip (api_key api_secret session_id : List Nat)
    (role : TokenRole) (t n : Nat) (hk : ByteValid api_key) (hs : ByteValid session_id) :
    ∃ tok sig qs,
      generate_token api_key api_secret session_id role (some t) n = some tok ∧
      tok.take 4 = asciiStr "T1==" ∧
      b64decode (tok.drop 4) =
        some (asciiStr "partner_id=" ++ api_key ++ asciiStr "&sig=" ++ sig ++
          asciiStr ":" ++ qs) ∧
      sig = toHex (hmacSha1 api_secret qs) := by
  refine ⟨tokenOf api_key api_secret
      ⟨session_id, t % U64, (t + 86400) % U64, n % U64, role⟩,
    toHex (hmacSha1 api_secret
      (TokenData.toWire ⟨session_id, t % U64, (t + 86400) % U64, n % U64, role⟩)),
    TokenData.toWire ⟨session_id, t % U64, (t + 86400) % U64, n % U64, role⟩,
    generate_token_eq_tokenOf api_key api_secret session_id role t n, ?_, ?_, rfl⟩
  · rw [tokenOf, show (4 : Nat) = (asciiStr "T1==").length from rfl]
    exact List.take_left _ _
  · rw [tokenOf, show (4 : Nat) = (asciiStr "T1==").length from rfl, List.drop_left]
    rw [b64decode_b64encode _ (innerOf_valid api_key api_secret _ hk hs)]
    rfl

/-- Witness for C2 at a concrete draw. -/
theorem generate_token_roundtrip_witness :
    (ByteValid [107] ∧ ByteValid [97]) ∧
    (∃ tok sig qs,
      generate_token [107] [115] [97] TokenRole.Moderator (some 1600000000) 42 = some tok ∧
      tok.take 4 = asciiStr "T1==" ∧
      b64decode (tok.drop 4) =
        some (asciiStr "partner_id=" ++ [107] ++ asciiStr "&sig=" ++ sig ++
          asciiStr ":" ++ qs) ∧
      sig = toHex (hmacSha1 [115] qs)) :=
  ⟨⟨by decide, by decide⟩,
    generate_token_roundtrip [107] [115] [97] TokenRole.Moderator 1600000000 42
      (by decide) (by decide)⟩

/-- C3 (amended): for every server-auth claims record built from a readable
clock draw `t`, provided the u64 addition `t + 180` does not wrap, the
payload satisfies `exp - iat = 180`, `ist = "project"` and `iss = apiKey`. -/
theorem claims_fields (api_key : List Nat) (t jti : Nat) (ht : t + 180 < U64) :
    ∃ c, Claims.new api_key (some t) jti = some c ∧
      (c.exp : Int) - (c.iat : Int) = 180 ∧
      c.ist = asciiStr "project" ∧ c.iss = api_key := by
  refine ⟨_, rfl, ?_, rfl, rfl⟩
  simp only [Claims.new]
  rw [Nat.mod_eq_of_lt (show t < U64 by omega), Nat.mod_eq_of_lt ht]
  push_cast
  omega

/-- Witness for C3 at a concrete draw. -/
theorem claims_fields_witness :
    (1600000000 + 180 < U64) ∧
    (∃ c, Claims.new [107] (some 1600000000) 7 = some c ∧
      (c.exp : Int) - (c.iat : Int) = 180 ∧
      c.ist = asciiStr "project" ∧ c.iss = [107]) :=
  ⟨by decide, claims_fields [107] 1600000000 7 (by decide)⟩

/-- C3 counterexample: at the drawn u64 time `2^64 - 1` the `exp` field
wraps to `179`, so `exp - iat` is not `180`. -/
theorem claims_fields_cex :
    Claims.new [107] (some 18446744073709551615) 0 =
      some ⟨[107], asciiStr "project", 18446744073709551615, 179, 0⟩ ∧
    ¬ ((179 : Int) - (18446744073709551615 : Int) = 180) := by
  constructor
  · decide
  · decide

/-- C4 (amended): for every token-data record built by `TokenData::new` from
a readable clock draw `t`, provided the u64 addition `t + 86400` does not
wrap, the embedded `expire_time` minus the embedded `create_time` is exactly
86400. -/
theorem token_window (session_id : List Nat) (role : TokenRole) (t n : Nat)
    (td : TokenData) (ht : t + 86400 < U64)
    (h : TokenData.new session_id role (some t) n = some td) :
    (td.expire_time : Int) - (td.create_time : Int) = 86400 := by
  simp only [TokenData.new, Option.some_inj] at h
  subst h
  simp only
  rw [Nat.mod_eq_of_lt (show t < U64 by omega), Nat.mod_eq_of_lt ht]
  push_cast
  omega

/-- Witness for C4 at a concrete draw. -/
theorem token_window_witness :
    (1600000000 + 86400 < U64) ∧
    ((⟨[97], 1600000000, 1600086400, 42, TokenRole.Publisher⟩ : TokenData).expire_time : Int) -
      ((⟨[97], 1600000000, 1600086400, 42, TokenRole.Publisher⟩ : TokenData).create_time : Int) =
        86400 :=
  ⟨by decide,
    token_window [97] TokenRole.Publisher 1600000000 42
      ⟨[97], 1600000000, 1600086400, 42, TokenRole.Publisher⟩ (by decide) (by decide)⟩

/-- C4 counterexample: at the drawn u64 time `2^64 - 1` the stored
`expire_time` wraps to `86399` and the difference to `create_time` is not
86400. -/
theorem token_window_cex :
    TokenData.new [97] TokenRole.Publisher (some 18446744073709551615) 0 =
      some ⟨[97], 18446744073709551615, 86399, 0, TokenRole.Publisher⟩ ∧
    ¬ ((86399 : Int) - (18446744073709551615 : Int) = 86400) := by
  constructor
  · decide
  · decide

/-- C5 (amended): for every token-data record built by `TokenData::new` from
a readable clock draw `t`, provided the u64 addition `t + 86400` does not
wrap, the invariant `create_time < expire_time` holds. -/
theorem token_time_invariant (session_id : List Nat) (role : TokenRole) (t n : Nat)
    (td : TokenData) (ht : t + 86400 < U64)
    (h : TokenData.new session_id role (some t) n = some td) :
    td.create_time < td.expire_time := by
  simp only [TokenData.new, Option.some_inj] at h
  subst h
  simp only
  rw [Nat.mod_eq_of_lt (show t < U64 by omega), Nat.mod_eq_of_lt ht]
  omega

/-- Witness for C5 at a concrete draw. -/
theorem token_time_invariant_witness :
    (1600000000 + 86400 < U64) ∧
    ((⟨[97], 1600000000, 1600086400, 42, TokenRole.Publisher⟩ : TokenData).create_time <
      (⟨[97], 1600000000, 1600086400, 42, TokenRole.Publisher⟩ : TokenData).expire_time) :=
  ⟨by decide,
    token_time_invariant [97] TokenRole.Publisher 1600000000 42
      ⟨[97], 1600000000, 1600086400, 42, TokenRole.Publisher⟩ (by decide) (by decide)⟩

/-- C5 counterexample: at the drawn u64 time `2^64 - 1` the stored
`expire_time` wraps below `create_time`. -/
theorem token_time_invariant_cex :
    TokenData.new [98] TokenRole.Publisher (some 18446744073709551615) 0 =
      some ⟨[98], 18446744073709551615, 86399, 0, TokenRole.Publisher⟩ ∧
    ¬ ((18446744073709551615 : Nat) < 86399) := by
  constructor
  · decide
  · decide

/-- C6: on a readable clock, `auth_header` either returns the assertion
string produced by the JWT encoding step or fails with `EncodingError`;
`EncodingError` is returned exactly when the claims cannot be
serialized/signed (the external encoder fails), and no other error kind is
ever returned.  The statement is parametric in the external
`jsonwebtoken::encode` step. -/
theorem auth_header_only_encoding_error {E : Type}
    (jwtEncode : List Nat → Claims → Except E (List Nat))
    (api_key api_secret : List Nat) (t jti : Nat) :
    (∀ r, auth_header jwtEncode api_key api_secret (some t) jti = some r →
      (∃ s, r = Except.ok s) ∨ r = Except.error OpenTokError.EncodingError) ∧
    (auth_header jwtEncode api_key api_secret (some t) jti =
        some (Except.error OpenTokError.EncodingError) ↔
      ∃ c e, Claims.new api_key (some t) jti = some c ∧
        jwtEncode api_secret c = Except.error e) ∧
    (∀ s, auth_header jwtEncode api_key api_secret (some t) jti = some (Except.ok s) ↔
      ∃ c, Claims.new api_key (some t) jti = some c ∧
        jwtEncode api_secret c = Except.ok s) := by
  simp only [auth_header, Claims.new]
  cases hj : jwtEncode api_secret
      ⟨api_key, asciiStr "project", t % U64, (t + 180) % U64, jti % U64⟩ with
  | ok s =>
    refine ⟨fun r hr => ?_, ?_, fun s' => ?_⟩
    · exact Or.inl ⟨s, (Option.some_inj.mp hr).symm⟩
    · simp only [Option.some_inj, Claims.new]
      constructor
      · intro h
        cases h
      · rintro ⟨c, e, hc, he⟩
        rw [← hc, hj] at he
        cases he
    · simp only [Option.some_inj, Except.ok.injEq, Claims.new]
      constructor
      · intro h
        exact ⟨_, rfl, by rw [hj, h]⟩
      · rintro ⟨c, hc, he⟩
        rw [← hc, hj] at he
        injection he
  | error e =>
    refine ⟨fun r hr => ?_, ?_, fun s' => ?_⟩
    · exact Or.inr (Option.some_inj.mp hr).symm
    · simp only [Claims.new]
      constructor
      · intro _
        exact ⟨_, e, rfl, hj⟩
      · intro _
        trivial
    · simp only [Option.some_inj, Claims.new]
      constructor
      · intro h
        cases h
      · rintro ⟨c, hc, he⟩
        rw [← hc, hj] at he
        cases he

/-- Witness for C6: with an always-failing external encoder the result is
exactly `EncodingError`. -/
theorem auth_header_only_encoding_error_witness :
    auth_header (fun _ _ => Except.error ()) [107] [115] (some 5) 0 =
      some (Except.error OpenTokError.EncodingError) :=
  (auth_header_only_encoding_error (fun _ _ => Except.error ()) [107] [115] 5 0).2.1.mpr
    ⟨⟨[107], asciiStr "project", 5, 185, 0⟩, (), by decide, rfl⟩

/-- C7 (amended): on every clock draw at or after the Unix epoch (the
`duration_since` call succeeds) and every nonce draw, `generate_token`
returns a token string: there is no error path. -/
theorem generate_token_total (api_key api_secret session_id : List Nat)
    (role : TokenRole) (t n : Nat) :
    (generate_token api_key api_secret session_id role (some t) n).isSome = true := by
  rw [generate_token_eq_tokenOf]
  rfl

/-- C7 counterexample: on a clock draw before the Unix epoch
(`duration_since` returns `Err`), `generate_token` aborts through the
`.expect("Time went backwards, Doc!")` panic instead of returning a token
string. -/
theorem generate_token_pre_epoch_cex :
    generate_token [107] [115] [97] TokenRole.Publisher none 0 = none := rfl

/-- C8: two invocations of `generate_token` with identical key, secret,
session id and role but different drawn `(time, nonce)` u64 pairs produce
different token strings. -/
theorem generate_token_distinct (api_key api_secret session_id : List Nat)
    (role : TokenRole) (t1 n1 t2 n2 : Nat)
    (hk : ByteValid api_key) (hs : ByteValid session_id)
    (ht1 : t1 < U64) (hn1 : n1 < U64) (ht2 : t2 < U64) (hn2 : n2 < U64)
    (hne : (t1, n1) ≠ (t2, n2)) :
    generate_token api_key api_secret session_id role (some t1) n1 ≠
      generate_token api_key api_secret session_id role (some t2) n2 := by
  intro h
  rw [generate_token_eq_tokenOf, generate_token_eq_tokenOf] at h
  replace h := Option.some_inj.mp h
  obtain ⟨hc, -, ho⟩ := tokenOf_inj hk hs h
  rw [Nat.mod_eq_of_lt ht1, Nat.mod_eq_of_lt ht2] at hc
  rw [Nat.mod_eq_of_lt hn1, Nat.mod_eq_of_lt hn2] at ho
  exact hne (by rw [hc, ho])

/-- Witness for C8: same clock second, different nonces. -/
theorem generate_token_distinct_witness :
    (ByteValid [107] ∧ ByteValid [97] ∧ 1600000000 < U64 ∧ 0 < U64 ∧ 1 < U64 ∧
      ((1600000000, 0) : Nat × Nat) ≠ (1600000000, 1)) ∧
    generate_token [107] [115] [97] TokenRole.Publisher (some 1600000000) 0 ≠
      generate_token [107] [115] [97] TokenRole.Publisher (some 1600000000) 1 :=
  ⟨⟨by decide, by decide, by decide, by decide, by decide, by decide⟩,
    generate_token_distinct [107] [115] [97] TokenRole.Publisher 1600000000 0 1600000000 1
      (by decide) (by decide) (by decide) (by decide) (by decide) (by decide) (by decide)⟩

/-- C9: after the session-creation response parses as a list, the code
asserts the list has exactly one element: any other count is a panic
(`assert_eq!`), not a recoverable error value, while a singleton yields its
session id. -/
theorem create_session_asserts_single (body : String) (parsed : List CreateSessionResponse) :
    (create_session_on_parsed body parsed = none ↔ parsed.length ≠ 1) ∧
    (∀ s, parsed = [s] →
      create_session_on_parsed body parsed = some (Except.ok s.session_id)) := by
  constructor
  · constructor
    · intro h hlen
      rw [create_session_on_parsed, if_pos hlen] at h
      cases hg : parsed.getLast? <;> rw [hg] at h <;> cases h
    · intro hlen
      rw [create_session_on_parsed, if_neg hlen]
  · rintro s rfl
    rw [create_session_on_parsed]
    simp

/-- Witness for C9: an empty response list is a panic (`none`), not an error
value; a singleton returns its session id. -/
theorem create_session_asserts_single_witness :
    create_session_on_parsed "raw" [] = none ∧
    create_session_on_parsed "raw" [⟨"sess"⟩] = some (Except.ok "sess") :=
  ⟨(create_session_asserts_single "raw" []).1.mpr (by decide),
    (create_session_asserts_single "raw" [⟨"sess"⟩]).2 ⟨"sess"⟩ rfl⟩

/-- C10: the conversion of a transport error into the library error type
maps an HTTP status in 400..=499 to `BadRequest` with the error message, a
status in 500..=599 to `ServerError` with the error message, and every other
status to `__Unknown`. -/
theorem from_surf_status_mapping (status : Nat) (msg : String) :
    (400 ≤ status → status ≤ 499 →
      OpenTokError.fromSurf status msg = OpenTokError.BadRequest msg) ∧
    (500 ≤ status → status ≤ 599 →
      OpenTokError.fromSurf status msg = OpenTokError.ServerError msg) ∧
    (¬ (400 ≤ status ∧ status ≤ 599) →
      OpenTokError.fromSurf status msg = OpenTokError.__Unknown) := by
  unfold OpenTokError.fromSurf
  refine ⟨fun h1 h2 => ?_, fun h1 h2 => ?_, fun h => ?_⟩ <;>
    split_ifs <;> first | rfl | omega

/-- Witness for C10 at statuses 404, 500 and 302. -/
theorem from_surf_status_mapping_witness :
    OpenTokError.fromSurf 404 "m" = OpenTokError.BadRequest "m" ∧
    OpenTokError.fromSurf 500 "m" = OpenTokError.ServerError "m" ∧
    OpenTokError.fromSurf 302 "m" = OpenTokError.__Unknown :=
  ⟨(from_surf_status_mapping 404 "m").1 (by decide) (by decide),
    (from_surf_status_mapping 500 "m").2.1 (by decide) (by decide),
    (from_surf_status_mapping 302 "m").2.2 (by decide)⟩
